import Mathlib

/-!
Shallow embedding of the luafmt CLI core (`src/cli/main.rs`): the
discovery-dispatch-aggregation pipeline of the batch formatter.  Pure parts of
the Rust code become Lean functions; the file system, standard streams and the
external collaborators (formatting engine, diff renderer, config loader,
directory walker) are threaded explicitly through an `Env` record.  The worker
pool is linearized: the effects of each job appear contiguously, which is faithful
for the order-insensitive properties proved below (outcome counts, exit-status
folding, frame conditions, which thread performs which write).
-/

set_option linter.unusedVariables false

namespace Luafmt

/-- Opaque formatting configuration (`stylua_lib::Config`), produced by the
external config loader (`config::load_config`) and shared read-only. -/
inductive Config
  | mk
deriving DecidableEq

/-- `stylua_lib::Range`, built by `Range::from_values` (main.rs lines 101-105). -/
structure Range where
  rangeStart : Option Nat
  rangeEnd : Option Nat
deriving DecidableEq

/-- `Range::from_values`. -/
def Range.from_values (s e : Option Nat) : Range := ⟨s, e⟩

/-- The command-line options (`opt::Opt`) as read by `format` in main.rs. -/
structure Opt where
  files : List String
  check : Bool
  glob : Option (List String)
  rangeStart : Option Nat
  rangeEnd : Option Nat
  numThreads : Nat
  verbose : Bool
  color : Bool
deriving DecidableEq

/-- `FormatResult` (main.rs lines 32-37): success, or a rendered diff payload. -/
inductive FormatResult
  | Complete
  | Diff (payload : String)
deriving DecidableEq

/-- An `anyhow` error as observable through its message chain: the list of
context messages, outermost wrapper first (`with_context` / `context` push the
new message at the front). -/
structure Err where
  contexts : List String
deriving DecidableEq

/-- The file system visible to the run: association of path to content, later
entries shadowed by earlier ones.  `fsRead` models `fs::read_to_string`
succeeding, `none` models a read error. -/
abbrev FS := List (String × String)

/-- File read (`fs::read_to_string`): `none` is a read failure. -/
def fsRead (fs : FS) (p : String) : Option String := List.lookup p fs

/-- File overwrite (`fs::write`). -/
def fsWrite (fs : FS) (p v : String) : FS := (p, v) :: fs

/-- One item produced by the `ignore::Walk` iterator in the discovery loop of
`format` (main.rs lines 185-236): a stdin sentinel (`entry.is_stdin()`), a path
entry together with the value of `path.is_file()`, or a walk error (the
`Err(error)` arm, lines 231-234). -/
inductive WalkItem
  | stdinEntry
  | pathEntry (path : String) (isFile : Bool)
  | walkError (msg : String)
deriving DecidableEq

/-- The external collaborators and ambient state of one run:
* `loadConfig` — `config::load_config` (main.rs line 98);
* `globErr` — whether `OverrideBuilder::add` rejects a pattern (lines 126-138);
* `formatCode` — the formatting engine `stylua_lib::format_code`;
* `outputDiff` — the diff renderer `output_diff::output_diff` (`Ok none` means
  the two texts are identical, `Ok (some d)` a rendered diff, `Err` a rendering
  failure);
* `readErrMsg` / `writeOk` / `writeErrMsg` — I/O behaviour of `fs::read_to_string`
  and `fs::write` error paths;
* `stdinContents` — what `stdin().read_to_string` yields;
* `stdoutOk` / `stdoutErrMsg` — whether the stdout write in `format_string`
  succeeds;
* `verboseMsg` — the rendered `verbose_println!` timing line of `format_file`
  (main.rs lines 53-58), `formatted {path} in {duration}`, whose duration part
  is ambient wall-clock data;
* `walkItems` — the stream the configured walker yields for this run. -/
structure Env where
  loadConfig : Except String Config
  globErr : String → Option String
  formatCode : String → Config → Option Range → Except String String
  outputDiff : String → String → Nat → String → Bool → Except String (Option String)
  readErrMsg : String → String
  writeOk : String → Bool
  writeErrMsg : String → String
  stdinContents : Except String String
  stdoutOk : Bool
  stdoutErrMsg : String
  verboseMsg : String → String
  walkItems : List WalkItem

/-- The tail of `format_file` after read and formatting succeeded (main.rs
lines 60-78): in check-mode render a diff and never write; otherwise overwrite
the file with the formatted content. -/
def format_file_tail (env : Env) (fs : FS) (path : String) (opt : Opt)
    (contents formatted_contents : String) : Except Err FormatResult × FS :=
  if opt.check = true then
    match env.outputDiff contents formatted_contents 3
        ("Diff in " ++ path ++ ":") opt.color with
    | .error e => (.error ⟨["Failed to create diff", e]⟩, fs)
    | .ok (some d) => (.ok (.Diff d), fs)
    | .ok none => (.ok .Complete, fs)
  else if env.writeOk path = true then
    (.ok .Complete, fsWrite fs path formatted_contents)
  else (.error ⟨["Could not write to " ++ path, env.writeErrMsg path]⟩, fs)

/-- `format_file` after the read succeeded (main.rs lines 48-58): invoke the
engine, wrapping its failure with the path; on engine success the
`verbose_println!` (lines 53-58) prints the timing line to stdout from the
worker thread when the verbose flag is set, and the check/write tail runs.
The third component records the stdout payloads written by the job thread. -/
def format_file_fmt (env : Env) (fs : FS) (path : String) (config : Config)
    (range : Option Range) (opt : Opt) (contents : String) :
    Except Err FormatResult × FS × List String :=
  match env.formatCode contents config range with
  | .error e => (.error ⟨["Could not format file " ++ path, e]⟩, fs, [])
  | .ok formatted_contents =>
    ((format_file_tail env fs path opt contents formatted_contents).1,
     (format_file_tail env fs path opt contents formatted_contents).2,
     if opt.verbose = true then [env.verboseMsg path] else [])

/-- `format_file` (main.rs lines 39-79).  Returns the `Result<FormatResult>` of the job,
the file system after the job (the only file write is the non-check-mode
`fs::write` on line 75), and the stdout payloads the job thread itself wrote
(the `verbose_println!` timing line, lines 53-58, when verbose is on). -/
def format_file (env : Env) (fs : FS) (path : String) (config : Config)
    (range : Option Range) (opt : Opt) : Except Err FormatResult × FS × List String :=
  match fsRead fs path with
  | none => (.error ⟨["Failed to read " ++ path, env.readErrMsg path]⟩, fs, [])
  | some contents => format_file_fmt env fs path config range opt contents

/-- `format_string` (main.rs lines 83-90): format stdin content and write the
result to stdout *from the calling (job) thread*.  Returns the
`Result<FormatResult>` and the list of payloads this call wrote to stdout. -/
def format_string (env : Env) (input : String) (config : Config)
    (range : Option Range) : Except Err FormatResult × List String :=
  match env.formatCode input config range with
  | .error e => (.error ⟨["Failed to format from stdin", e]⟩, [])
  | .ok formatted_contents =>
    if env.stdoutOk then (.ok .Complete, [formatted_contents])
    else (.error ⟨["Could not output to stdout", env.stdoutErrMsg]⟩, [])

/-- The stdin job closure (main.rs lines 192-208).  Returns the list of messages
the job sends into the channel, in order, and the stdout payloads written by the
job thread itself.  Note the faithful absence of an early return after the
check-mode usage error (the `if opt.check { tx.send(Err(..)).unwrap(); };` block
falls through to the stdin read). -/
def stdin_job (env : Env) (opt : Opt) (config : Config) (range : Option Range) :
    List (Except Err FormatResult) × List String :=
  let pre : List (Except Err FormatResult) :=
    if opt.check then
      [.error ⟨["warning: `--check` cannot be used whilst reading from stdin"]⟩]
    else []
  match env.stdinContents with
  | .ok buf =>
    let r := format_string env buf config range
    (pre ++ [r.1], r.2)
  | .error e => (pre ++ [.error ⟨["Could not format from stdin", e]⟩], [])

/-- The compiled matcher of the default glob `**/*.lua` (main.rs line 217): a
path matches iff its final component matches `*.lua`, i.e. the path ends with
`.lua`. -/
def DEFAULT_GLOB_isMatch (path : String) : Bool := path.endsWith ".lua"

/-- The dispatch gate of the discovery loop (main.rs lines 212-222): a regular
file is skipped only when the default glob is in force, the path was not
explicitly given on the command line, and the default glob does not match. -/
def dispatchGate (useDefaultGlob : Bool) (files : List String) (path : String) : Bool :=
  !(useDefaultGlob && !(files.any fun q => path == q) && !DEFAULT_GLOB_isMatch path)

/-- Which kind of job a pool task is (the two `pool.execute` call sites inside
the discovery loop, main.rs lines 192 and 225). -/
inductive JobKind
  | stdinJob
  | fileJob (path : String)
deriving DecidableEq

/-- Everything one dispatched job did: the messages it sent into the result
channel and the stdout payloads it wrote from its own worker thread. -/
structure JobRecord where
  kind : JobKind
  sends : List (Except Err FormatResult)
  stdoutWrites : List String

/-- The discovery loop (main.rs lines 185-236): walk the items in order,
dispatch a job per surviving entry, count walk errors.  Returns the final file
system, the job records in dispatch order, and the number of walk errors. -/
def runItems (env : Env) (opt : Opt) (config : Config) (range : Option Range)
    (useDefaultGlob : Bool) : FS → List WalkItem → FS × List JobRecord × Nat
  | fs, [] => (fs, [], 0)
  | fs, .walkError _ :: rest =>
    let r := runItems env opt config range useDefaultGlob fs rest
    (r.1, r.2.1, r.2.2 + 1)
  | fs, .stdinEntry :: rest =>
    let j := stdin_job env opt config range
    let r := runItems env opt config range useDefaultGlob fs rest
    (r.1, ⟨.stdinJob, j.1, j.2⟩ :: r.2.1, r.2.2)
  | fs, .pathEntry p isf :: rest =>
    if (isf && dispatchGate useDefaultGlob opt.files p) = true then
      let res := format_file env fs p config range opt
      let r := runItems env opt config range useDefaultGlob res.2.1 rest
      (r.1, ⟨.fileJob p, [res.1], res.2.2⟩ :: r.2.1, r.2.2)
    else
      runItems env opt config range useDefaultGlob fs rest

/-- Does the sink store 1 for this channel message because it is a diff
(`Ok(FormatResult::Diff(..))`, main.rs lines 164-165)? -/
def outcomeIsDiff : Except Err FormatResult → Bool
  | .ok (.Diff _) => true
  | _ => false

/-- Does the sink store 1 for this channel message because it is a failure
(`Err(err)`, main.rs lines 175-178)? -/
def outcomeIsFailed : Except Err FormatResult → Bool
  | .error _ => true
  | _ => false

/-- The sink reacts (stores 1) exactly to diffs and failures; `Complete` is a
no-op (main.rs lines 160-180). -/
def outcomeIsError (o : Except Err FormatResult) : Bool :=
  outcomeIsDiff o || outcomeIsFailed o

/-- The sequence of values the sink task stores into the shared `error_code`
cell while draining the channel: one store of 1 per diff or failed outcome
(main.rs lines 165 and 177). -/
def sinkStores (outcomes : List (Except Err FormatResult)) : List Int :=
  (outcomes.filter outcomeIsError).map fun _ => (1 : Int)

/-- The diff payloads the sink writes to stdout (main.rs lines 167-172). -/
def sinkStdoutWrites (outcomes : List (Except Err FormatResult)) : List String :=
  outcomes.filterMap fun o =>
    match o with
    | .ok (.Diff d) => some d
    | _ => none

/-- All channel messages of a run, job by job in dispatch order. -/
def outcomesOf (jobs : List JobRecord) : List (Except Err FormatResult) :=
  (jobs.map JobRecord.sends).flatten

/-- The final value of the `error_code` cell: it starts at 0 (main.rs line 107)
and each store overwrites it, so reading after the pool drains yields the last
stored value, or 0 when nothing was stored. -/
def cellFinal (stores : List Int) : Int := stores.foldl (fun _ v => v) 0

/-- The observable outcome of one run of `format` that reached dispatch. -/
structure RunOutcome where
  jobs : List JobRecord
  walkErrors : Nat
  fsFinal : FS
  cellStores : List Int
  exitCode : Int

/-- Assemble the run outcome: the cell stores are the stores the sink performs for the
delivered outcomes plus one store of 1 per walk error (main.rs line 233), and
the exit code is the final cell value read after `pool.join()` (lines 239-241). -/
def mkRunOutcome (jobs : List JobRecord) (we : Nat) (fs : FS) : RunOutcome :=
  let stores := sinkStores (outcomesOf jobs) ++ List.replicate we 1
  ⟨jobs, we, fs, stores, cellFinal stores⟩

/-- The dispatch phase of `format`: drive the walker, then aggregate. -/
def formatDispatch (env : Env) (opt : Opt) (config : Config) (range : Option Range)
    (useDefaultGlob : Bool) (fs0 : FS) : RunOutcome :=
  let r := runItems env opt config range useDefaultGlob fs0 env.walkItems
  mkRunOutcome r.2.1 r.2.2 r.1

/-- First glob pattern `OverrideBuilder::add` rejects, with its error
(main.rs lines 127-138). -/
def firstBadGlob (env : Env) : List String → Option (String × String)
  | [] => none
  | g :: rest =>
    match env.globErr g with
    | some e => some (g, e)
    | none => firstBadGlob env rest

/-- The `use_default_glob` computation (main.rs lines 123-145): with no `--glob`
option the default glob is used; otherwise the override patterns are parsed
(aborting the run on the first bad one) and the default glob is disabled. -/
def buildUseDefaultGlob (env : Env) (opt : Opt) : Except Err Bool :=
  match opt.glob with
  | none => .ok true
  | some globs =>
    match firstBadGlob env globs with
    | some pe => .error ⟨["error: cannot parse glob pattern " ++ pe.1 ++ ": " ++ pe.2]⟩
    | none => .ok false

/-- The range construction (main.rs lines 101-105). -/
def mkRange (opt : Opt) : Option Range :=
  if opt.rangeStart.isSome || opt.rangeEnd.isSome then
    some (Range.from_values opt.rangeStart opt.rangeEnd)
  else none

/-- `format` with a resolved configuration: build the overrides, then dispatch. -/
def formatWithConfig (env : Env) (opt : Opt) (fs0 : FS) (config : Config) :
    Except Err RunOutcome :=
  match buildUseDefaultGlob env opt with
  | .error e => .error e
  | .ok udg => .ok (formatDispatch env opt config (mkRange opt) udg fs0)

/-- `format` (main.rs lines 92-242): reject an empty file list before any other
work (line 93), load the configuration, resolve globs, dispatch, and report the
final cell value.  All reads, writes and job dispatches of the embedding live
inside the `RunOutcome` of the success case, mirroring that the empty-roots
bailout precedes every effect in the source. -/
def format (env : Env) (opt : Opt) (fs0 : FS) : Except Err RunOutcome :=
  if opt.files.isEmpty then .error ⟨["error: no files provided"]⟩
  else
    match env.loadConfig with
    | .error e => .error ⟨[e]⟩
    | .ok config => formatWithConfig env opt fs0 config

/-- `main` (main.rs lines 244-256): a `format` error prints and exits 1,
otherwise the returned code is the process exit code. -/
def mainExitCode (env : Env) (opt : Opt) (fs0 : FS) : Int :=
  match format env opt fs0 with
  | .ok out => out.exitCode
  | .error _ => 1

/-- Paths of the dispatched file-mode jobs, in dispatch order. -/
def fileJobPaths (jobs : List JobRecord) : List String :=
  jobs.filterMap fun j =>
    match j.kind with
    | .fileJob p => some p
    | .stdinJob => none

/-- Sliding-window sublist test on character lists, used to state that an
error message mentions a path. -/
def listContainsSublist (sub : List Char) : List Char → Bool
  | [] => sub.isEmpty
  | c :: t => sub.isPrefixOf (c :: t) || listContainsSublist sub t

/-- Substring test: does `s` contain `sub`? -/
def strContains (s sub : String) : Bool := listContainsSublist sub.data s.data

/-- Does any context message in the error chain mention the path `p`? -/
def errMentions (e : Err) (p : String) : Bool :=
  e.contexts.any fun c => strContains c p

/-- The filter-relevant configuration of the walker builder. -/
structure WalkerConfig where
  hidden : Bool
  parents : Bool
  customIgnore : Option String
deriving DecidableEq

/-- The walker configuration `format` builds (main.rs lines 117-121):
`standard_filters(false)` turns every standard filter off, then `hidden(true)`
turns the hidden-file filter back on — in the `ignore` crate, `hidden(yes)`
*enables ignoring hidden files* — then `parents(true)` re-enables parent ignore
files, and `.styluaignore` is added as a custom ignore file name. -/
def formatWalkerConfig : WalkerConfig :=
  { hidden := true, parents := true, customIgnore := some ".styluaignore" }

/-- A file name is hidden when it begins with a dot (the notion the `ignore` crate
uses on Unix). -/
def isHiddenName (name : String) : Bool :=
  match name.data with
  | [] => false
  | c :: _ => c == '.'

/-- The hidden-file filter of the `ignore` crate: root entries (depth 0, the paths
given to `WalkBuilder::new`/`add`) are always yielded; an entry reached by
recursive expansion (depth ≥ 1) is yielded only if the hidden filter is off or
its name is not hidden. -/
def hiddenFilterKeeps (cfg : WalkerConfig) (depth : Nat) (name : String) : Bool :=
  depth == 0 || !(cfg.hidden && isHiddenName name)

/-- A benign environment: every collaborator succeeds, the engine appends a
final newline, the renderer reports a diff exactly when the texts differ, the
walker yields nothing. -/
def baseEnv : Env where
  loadConfig := .ok .mk
  globErr := fun _ => none
  formatCode := fun s _ _ => .ok (s ++ "\n")
  outputDiff := fun a b _ hdr _ => .ok (if a == b then none else some (hdr ++ " <diff>"))
  readErrMsg := fun _ => "io error"
  writeOk := fun _ => true
  writeErrMsg := fun _ => "io error"
  stdinContents := .ok "local x = 1"
  stdoutOk := true
  stdoutErrMsg := "io error"
  verboseMsg := fun p => "formatted " ++ p
  walkItems := []

/-- Options of a plain run over the single explicit file `a.lua`. -/
def opt0 : Opt := ⟨["a.lua"], false, none, none, none, 1, false, false⟩

/-- A file system holding `a.lua`. -/
def fs0c : FS := [("a.lua", "local x = 1")]

/-- Environment whose walker yields the single regular file `a.lua`. -/
def env0 : Env := { baseEnv with walkItems := [.pathEntry "a.lua" true] }

/-- The outcome of the `env0`/`opt0` run. -/
def out0 : RunOutcome := formatDispatch env0 opt0 Config.mk (mkRange opt0) true fs0c

/-- Options of a check-mode stdin run (`roots = ["-"]`, `--check`). -/
def optStdinCheck : Opt := ⟨["-"], true, none, none, none, 1, false, false⟩

/-- Options of a non-check stdin run. -/
def optStdinPlain : Opt := ⟨["-"], false, none, none, none, 1, false, false⟩

/-- Environment whose walker yields the stdin sentinel. -/
def envStdin : Env := { baseEnv with walkItems := [.stdinEntry] }

/-- The outcome of the non-check stdin run. -/
def outSP : RunOutcome := formatDispatch envStdin optStdinPlain Config.mk (mkRange optStdinPlain) true []

/-- Check-mode options naming `init.lua` explicitly. -/
def optCheckA : Opt := ⟨["init.lua"], true, none, none, none, 1, false, false⟩

/-- Non-check options naming `init.lua` explicitly. -/
def optPlainA : Opt := ⟨["init.lua"], false, none, none, none, 1, false, false⟩

/-- A file system holding `init.lua`. -/
def fsA : FS := [("init.lua", "local x")]

/-- Environment whose diff renderer fails. -/
def envDiffFail : Env := { baseEnv with outputDiff := fun _ _ _ _ _ => .error "render failure" }

/-- Options with zero roots. -/
def optEmpty : Opt := ⟨[], false, none, none, none, 1, false, false⟩

/-! ### Helper lemmas -/

/-- Folding the overwrite function over an all-ones store list yields the
initial value when no store happened and 1 otherwise. -/
theorem foldl_ones (l : List Int) : ∀ a : Int, (∀ x ∈ l, x = 1) →
    l.foldl (fun _ v => v) a = if l.isEmpty then a else 1 := by
  induction l with
  | nil => intro a _; rfl
  | cons x t ih =>
    intro a h
    have hx : x = 1 := h x (List.mem_cons_self x t)
    have ht := ih x fun y hy => h y (List.mem_cons_of_mem x hy)
    rw [List.foldl_cons, ht]
    cases t with
    | nil => simpa using hx
    | cons z r => simp

/-- The cell read after the pool drains: 0 when nothing was stored, 1 otherwise
(all stores write 1). -/
theorem cellFinal_ones (l : List Int) (h : ∀ x ∈ l, x = 1) :
    cellFinal l = if l.isEmpty then 0 else 1 :=
  foldl_ones l 0 h

/-- Prepending a value at most 1 to an all-ones list gives a monotone chain. -/
theorem chain_le_of_ones (l : List Int) : ∀ a : Int, a ≤ 1 → (∀ x ∈ l, x = 1) →
    List.Chain' (· ≤ ·) (a :: l) := by
  induction l with
  | nil => intro a _ _; simp
  | cons x t ih =>
    intro a ha h
    have hx : x = 1 := h x (List.mem_cons_self x t)
    rw [List.chain'_cons]
    refine ⟨by rw [hx]; exact ha, ?_⟩
    exact ih x (by rw [hx]) fun y hy => h y (List.mem_cons_of_mem x hy)

/-- Every value stored into the exit-status cell during a run is 1. -/
theorem mem_runStores_eq_one (outs : List (Except Err FormatResult)) (we : Nat) :
    ∀ x ∈ sinkStores outs ++ List.replicate we (1 : Int), x = 1 := by
  intro x hx
  rcases List.mem_append.mp hx with h | h
  · rcases List.mem_map.mp h with ⟨o, _, ho⟩
    exact ho.symm
  · exact List.eq_of_mem_replicate h

/-- The sink stores nothing exactly when no delivered outcome is a diff or a
failure. -/
theorem sinkStores_eq_nil (outs : List (Except Err FormatResult)) :
    sinkStores outs = [] ↔ ∀ o ∈ outs, outcomeIsError o = false := by
  simp [sinkStores, List.filter_eq_nil_iff]

/-- Inversion of a successful `format` run: the configuration loaded, the glob
resolution succeeded, and the outcome is that of the dispatch phase. -/
theorem format_ok_inv (env : Env) (opt : Opt) (fs0 : FS) (out : RunOutcome)
    (h : format env opt fs0 = Except.ok out) :
    ∃ config udg, env.loadConfig = Except.ok config ∧
      buildUseDefaultGlob env opt = Except.ok udg ∧
      out = formatDispatch env opt config (mkRange opt) udg fs0 := by
  unfold format at h
  cases he : opt.files.isEmpty with
  | true => rw [he] at h; simp at h
  | false =>
    rw [he] at h
    simp only [Bool.false_eq_true, if_false] at h
    cases hc : env.loadConfig with
    | error e => rw [hc] at h; simp at h
    | ok config =>
      rw [hc] at h
      unfold formatWithConfig at h
      cases hu : buildUseDefaultGlob env opt with
      | error e => rw [hu] at h; simp at h
      | ok udg =>
        rw [hu] at h
        simp only [Except.ok.injEq] at h
        exact ⟨config, udg, rfl, rfl, h.symm⟩

/-- The store list and exit code of a successful run, in terms of its jobs and
walk errors. -/
theorem format_ok_fields (env : Env) (opt : Opt) (fs0 : FS) (out : RunOutcome)
    (h : format env opt fs0 = Except.ok out) :
    out.cellStores = sinkStores (outcomesOf out.jobs) ++ List.replicate out.walkErrors 1 ∧
    out.exitCode = cellFinal out.cellStores := by
  obtain ⟨config, udg, _, _, rfl⟩ := format_ok_inv env opt fs0 out h
  exact ⟨rfl, rfl⟩

/-- A list is a prefix of itself under `isPrefixOf`. -/
theorem isPrefixOf_self (l : List Char) : l.isPrefixOf l = true := by
  induction l with
  | nil => rfl
  | cons c t ih => simp [List.isPrefixOf, ih]

/-- A list contains itself as a trailing sublist. -/
theorem containsSublist_self_suffix (sub : List Char) :
    ∀ pre : List Char, listContainsSublist sub (pre ++ sub) = true := by
  intro pre
  induction pre with
  | nil =>
    cases sub with
    | nil => rfl
    | cons c t =>
      show ((c :: t).isPrefixOf (c :: t) || listContainsSublist (c :: t) t) = true
      rw [isPrefixOf_self]
      rfl
  | cons c pre ih =>
    show (List.isPrefixOf sub (c :: (pre ++ sub)) || listContainsSublist sub (pre ++ sub)) = true
    rw [ih]
    exact Bool.or_true _

/-- String append acts on the underlying character lists. -/
theorem strData_append (a b : String) : (a ++ b).data = a.data ++ b.data := by
  cases a; cases b; rfl

/-- A string of the form `a ++ p` contains `p`. -/
theorem strContains_append (a p : String) : strContains (a ++ p) p = true := by
  unfold strContains
  rw [strData_append]
  exact containsSublist_self_suffix p.data a.data

/-- Reading back a just-written file yields the written content. -/
theorem fsRead_fsWrite (fs : FS) (p v : String) : fsRead (fsWrite fs p v) p = some v := by
  simp [fsRead, fsWrite, List.lookup]

/-- `format_file` on a read failure. -/
theorem format_file_read_none (env : Env) (fs : FS) (p : String) (config : Config)
    (range : Option Range) (opt : Opt) (h : fsRead fs p = none) :
    format_file env fs p config range opt =
      (Except.error ⟨["Failed to read " ++ p, env.readErrMsg p]⟩, fs, []) := by
  unfold format_file; rw [h]

/-- `format_file` on a successful read. -/
theorem format_file_read_some (env : Env) (fs : FS) (p : String) (config : Config)
    (range : Option Range) (opt : Opt) (c : String) (h : fsRead fs p = some c) :
    format_file env fs p config range opt =
      format_file_fmt env fs p config range opt c := by
  unfold format_file; rw [h]

/-- The formatting stage on an engine failure. -/
theorem format_file_fmt_err (env : Env) (fs : FS) (p : String) (config : Config)
    (range : Option Range) (opt : Opt) (c e : String)
    (h : env.formatCode c config range = Except.error e) :
    format_file_fmt env fs p config range opt c =
      (Except.error ⟨["Could not format file " ++ p, e]⟩, fs, []) := by
  unfold format_file_fmt; rw [h]

/-- The formatting stage on engine success: the check/write tail runs, and the
verbose timing line is written from the job thread exactly when verbose is on. -/
theorem format_file_fmt_ok (env : Env) (fs : FS) (p : String) (config : Config)
    (range : Option Range) (opt : Opt) (c f : String)
    (h : env.formatCode c config range = Except.ok f) :
    format_file_fmt env fs p config range opt c =
      ((format_file_tail env fs p opt c f).1,
       (format_file_tail env fs p opt c f).2,
       if opt.verbose = true then [env.verboseMsg p] else []) := by
  unfold format_file_fmt; rw [h]

/-- With verbose off, a file-mode job writes nothing to stdout from its own
thread on any path. -/
theorem format_file_writes_nil (env : Env) (fs : FS) (p : String) (config : Config)
    (range : Option Range) (opt : Opt) (hv : opt.verbose = false) :
    (format_file env fs p config range opt).2.2 = [] := by
  cases hfr : fsRead fs p with
  | none => rw [format_file_read_none env fs p config range opt hfr]
  | some c =>
    rw [format_file_read_some env fs p config range opt c hfr]
    cases hfc : env.formatCode c config range with
    | error e => rw [format_file_fmt_err env fs p config range opt c e hfc]
    | ok f =>
      rw [format_file_fmt_ok env fs p config range opt c f hfc]
      rw [hv, if_neg Bool.false_ne_true]

/-- The check-mode tail never changes the file system. -/
theorem format_file_tail_check_snd (env : Env) (fs : FS) (p : String) (opt : Opt)
    (c f : String) (hc : opt.check = true) :
    (format_file_tail env fs p opt c f).2 = fs := by
  unfold format_file_tail
  rw [hc, if_pos rfl]
  split
  · rfl
  · rfl
  · rfl

/-- The check-mode tail on a diff-rendering failure. -/
theorem format_file_tail_check_diff_err (env : Env) (fs : FS) (p : String) (opt : Opt)
    (c f e : String) (hc : opt.check = true)
    (hod : env.outputDiff c f 3 ("Diff in " ++ p ++ ":") opt.color = Except.error e) :
    format_file_tail env fs p opt c f =
      (Except.error ⟨["Failed to create diff", e]⟩, fs) := by
  unfold format_file_tail
  rw [hc, if_pos rfl, hod]

/-- The check-mode tail when the renderer reports a difference. -/
theorem format_file_tail_check_diff_some (env : Env) (fs : FS) (p : String) (opt : Opt)
    (c f d : String) (hc : opt.check = true)
    (hod : env.outputDiff c f 3 ("Diff in " ++ p ++ ":") opt.color = Except.ok (some d)) :
    format_file_tail env fs p opt c f = (Except.ok (FormatResult.Diff d), fs) := by
  unfold format_file_tail
  rw [hc, if_pos rfl, hod]

/-- The check-mode tail when the renderer reports no difference. -/
theorem format_file_tail_check_diff_none (env : Env) (fs : FS) (p : String) (opt : Opt)
    (c f : String) (hc : opt.check = true)
    (hod : env.outputDiff c f 3 ("Diff in " ++ p ++ ":") opt.color = Except.ok none) :
    format_file_tail env fs p opt c f = (Except.ok FormatResult.Complete, fs) := by
  unfold format_file_tail
  rw [hc, if_pos rfl, hod]

/-- The non-check tail is the write step. -/
theorem format_file_tail_nocheck (env : Env) (fs : FS) (p : String) (opt : Opt)
    (c f : String) (hc : opt.check = false) :
    format_file_tail env fs p opt c f =
      (if env.writeOk p = true then
        (Except.ok FormatResult.Complete, fsWrite fs p f)
      else (Except.error ⟨["Could not write to " ++ p, env.writeErrMsg p]⟩, fs)) := by
  unfold format_file_tail
  rw [hc, if_neg Bool.false_ne_true]

/-- With the default glob in force, the dispatch gate accepts a path exactly when
it was explicitly listed or it matches the default glob. -/
theorem dispatchGate_true (files : List String) (p : String) :
    dispatchGate true files p =
      ((files.any fun q => p == q) || DEFAULT_GLOB_isMatch p) := by
  unfold dispatchGate
  cases files.any fun q => p == q <;> cases DEFAULT_GLOB_isMatch p <;> rfl

/-- Equation: the discovery loop on an empty stream. -/
theorem runItems_nil (env : Env) (opt : Opt) (config : Config) (range : Option Range)
    (udg : Bool) (fs : FS) :
    runItems env opt config range udg fs [] = (fs, [], 0) := rfl

/-- Equation: a walk error counts and dispatches nothing. -/
theorem runItems_walkError (env : Env) (opt : Opt) (config : Config) (range : Option Range)
    (udg : Bool) (fs : FS) (m : String) (rest : List WalkItem) :
    runItems env opt config range udg fs (WalkItem.walkError m :: rest) =
      ((runItems env opt config range udg fs rest).1,
       (runItems env opt config range udg fs rest).2.1,
       (runItems env opt config range udg fs rest).2.2 + 1) := rfl

/-- Equation: a stdin entry dispatches the stdin job. -/
theorem runItems_stdin (env : Env) (opt : Opt) (config : Config) (range : Option Range)
    (udg : Bool) (fs : FS) (rest : List WalkItem) :
    runItems env opt config range udg fs (WalkItem.stdinEntry :: rest) =
      ((runItems env opt config range udg fs rest).1,
       (⟨JobKind.stdinJob, (stdin_job env opt config range).1,
         (stdin_job env opt config range).2⟩ : JobRecord) ::
         (runItems env opt config range udg fs rest).2.1,
       (runItems env opt config range udg fs rest).2.2) := rfl

/-- Equation: a path entry is dispatched when it is a regular file passing the
gate, and skipped otherwise. -/
theorem runItems_path (env : Env) (opt : Opt) (config : Config) (range : Option Range)
    (udg : Bool) (fs : FS) (q : String) (isf : Bool) (rest : List WalkItem) :
    runItems env opt config range udg fs (WalkItem.pathEntry q isf :: rest) =
      if (isf && dispatchGate udg opt.files q) = true then
        ((runItems env opt config range udg (format_file env fs q config range opt).2.1 rest).1,
         (⟨JobKind.fileJob q, [(format_file env fs q config range opt).1],
           (format_file env fs q config range opt).2.2⟩ : JobRecord) ::
           (runItems env opt config range udg (format_file env fs q config range opt).2.1 rest).2.1,
         (runItems env opt config range udg (format_file env fs q config range opt).2.1 rest).2.2)
      else runItems env opt config range udg fs rest := rfl

/-- A path receives a file-mode job during the discovery loop exactly when the
walker yielded it as a regular file and it passes the dispatch gate. -/
theorem mem_fileJobPaths_runItems (env : Env) (opt : Opt) (config : Config)
    (range : Option Range) (udg : Bool) (p : String) :
    ∀ (items : List WalkItem) (fs : FS),
      (p ∈ fileJobPaths (runItems env opt config range udg fs items).2.1 ↔
        (WalkItem.pathEntry p true ∈ items ∧ dispatchGate udg opt.files p = true)) := by
  intro items
  induction items with
  | nil => intro fs; simp [runItems_nil, fileJobPaths]
  | cons it rest ih =>
    intro fs
    cases it with
    | walkError m =>
      rw [runItems_walkError]
      simp only [ih fs, List.mem_cons]
      constructor
      · intro ⟨hm, hgp⟩; exact ⟨Or.inr hm, hgp⟩
      · intro ⟨hm, hgp⟩
        rcases hm with heq | hm
        · exact absurd heq (by simp)
        · exact ⟨hm, hgp⟩
    | stdinEntry =>
      rw [runItems_stdin]
      have hskip : fileJobPaths ((⟨JobKind.stdinJob, (stdin_job env opt config range).1,
          (stdin_job env opt config range).2⟩ : JobRecord) ::
          (runItems env opt config range udg fs rest).2.1) =
          fileJobPaths (runItems env opt config range udg fs rest).2.1 := by
        simp [fileJobPaths]
      simp only [hskip, ih fs, List.mem_cons]
      constructor
      · intro ⟨hm, hgp⟩; exact ⟨Or.inr hm, hgp⟩
      · intro ⟨hm, hgp⟩
        rcases hm with heq | hm
        · exact absurd heq (by simp)
        · exact ⟨hm, hgp⟩
    | pathEntry q isf =>
      rw [runItems_path]
      by_cases hg : (isf && dispatchGate udg opt.files q) = true
      · have hisf : isf = true := (Bool.and_eq_true _ _).mp hg |>.1
        have hgq : dispatchGate udg opt.files q = true := (Bool.and_eq_true _ _).mp hg |>.2
        rw [if_pos hg]
        have hcons : fileJobPaths ((⟨JobKind.fileJob q,
            [(format_file env fs q config range opt).1],
            (format_file env fs q config range opt).2.2⟩ : JobRecord) ::
            (runItems env opt config range udg
              (format_file env fs q config range opt).2.1 rest).2.1) =
            q :: fileJobPaths (runItems env opt config range udg
              (format_file env fs q config range opt).2.1 rest).2.1 := by
          simp [fileJobPaths]
        rw [hcons]
        subst hisf
        constructor
        · intro hp
          rcases List.mem_cons.mp hp with hpq | hp
          · subst hpq; exact ⟨List.mem_cons_self _ _, hgq⟩
          · have := (ih _).mp hp
            exact ⟨List.mem_cons_of_mem _ this.1, this.2⟩
        · intro ⟨hmem, hgp⟩
          rcases List.mem_cons.mp hmem with heq | hmem
          · have : p = q := by cases heq; rfl
            subst this; exact List.mem_cons_self _ _
          · exact List.mem_cons_of_mem _ ((ih _).mpr ⟨hmem, hgp⟩)
      · rw [if_neg hg, ih fs]
        constructor
        · intro ⟨hmem, hgp⟩
          exact ⟨List.mem_cons_of_mem _ hmem, hgp⟩
        · intro ⟨hmem, hgp⟩
          rcases List.mem_cons.mp hmem with heq | hmem
          · exfalso
            have hpq : p = q ∧ (true : Bool) = isf := by
              cases heq; exact ⟨rfl, rfl⟩
            apply hg
            rw [Bool.and_eq_true]
            exact ⟨hpq.2.symm, by rw [← hpq.1]; exact hgp⟩
          · exact ⟨hmem, hgp⟩

/-- With verbose off, only the stdin job writes to stdout from its own worker
thread: every file-mode job record has no job-thread stdout writes.  (With
verbose on, a file-mode job prints the timing line from its worker thread.) -/
theorem runItems_file_jobs_no_stdout (env : Env) (opt : Opt) (config : Config)
    (range : Option Range) (udg : Bool) (hv : opt.verbose = false) :
    ∀ (items : List WalkItem) (fs : FS) (j : JobRecord),
      j ∈ (runItems env opt config range udg fs items).2.1 →
      j.kind ≠ JobKind.stdinJob → j.stdoutWrites = [] := by
  intro items
  induction items with
  | nil => intro fs j hj _; rw [runItems_nil] at hj; simp at hj
  | cons it rest ih =>
    intro fs j hj hk
    cases it with
    | walkError m =>
      rw [runItems_walkError] at hj
      exact ih fs j hj hk
    | stdinEntry =>
      rw [runItems_stdin] at hj
      rcases List.mem_cons.mp hj with heq | hmem
      · subst heq; exact absurd rfl hk
      · exact ih fs j hmem hk
    | pathEntry q isf =>
      rw [runItems_path] at hj
      by_cases hg : (isf && dispatchGate udg opt.files q) = true
      · rw [if_pos hg] at hj
        rcases List.mem_cons.mp hj with heq | hmem
        · subst heq; exact format_file_writes_nil env fs q config range opt hv
        · exact ih _ j hmem hk
      · rw [if_neg hg] at hj
        exact ih fs j hj hk

/-! ### Claim theorems -/

/-- Claim C9: in every run that reaches dispatch, the shared exit-status cell
starts at 0, only ever has the value 1 stored into it (by diff outcomes, failed
outcomes, or traversal errors), the sequence of cell values is monotone (never
reset to 0), and the single read performed after the pool drains yields 0 when
nothing was stored and 1 otherwise. -/
theorem c9_exit_status_cell (env : Env) (opt : Opt) (fs0 : FS) (out : RunOutcome)
    (h : format env opt fs0 = Except.ok out) :
    (∀ v ∈ out.cellStores, v = 1) ∧
    List.Chain' (· ≤ ·) ((0 : Int) :: out.cellStores) ∧
    out.exitCode = (if out.cellStores.isEmpty then 0 else 1) := by
  obtain ⟨hst, hex⟩ := format_ok_fields env opt fs0 out h
  have hall : ∀ v ∈ out.cellStores, v = (1 : Int) := by
    rw [hst]; exact mem_runStores_eq_one _ _
  refine ⟨hall, chain_le_of_ones _ 0 (by norm_num) hall, ?_⟩
  rw [hex]
  exact cellFinal_ones _ hall

/-- Witness for C9 at a concrete run over the single file `a.lua`. -/
theorem c9_exit_status_cell_witness :
    (∀ v ∈ out0.cellStores, v = 1) ∧
    List.Chain' (· ≤ ·) ((0 : Int) :: out0.cellStores) ∧
    out0.exitCode = (if out0.cellStores.isEmpty then 0 else 1) :=
  c9_exit_status_cell env0 opt0 fs0c out0 rfl

/-- Claim C3: for every run that starts dispatch, the process exit code is 0
iff no job sent a diff outcome, no job sent a failed outcome, and no traversal
error occurred; otherwise it is 1. -/
theorem c3_exit_code (env : Env) (opt : Opt) (fs0 : FS) (out : RunOutcome)
    (h : format env opt fs0 = Except.ok out) :
    (mainExitCode env opt fs0 = 0 ↔
      ((∀ o ∈ outcomesOf out.jobs, outcomeIsDiff o = false ∧ outcomeIsFailed o = false) ∧
        out.walkErrors = 0)) ∧
    (mainExitCode env opt fs0 = 0 ∨ mainExitCode env opt fs0 = 1) := by
  have hm : mainExitCode env opt fs0 = out.exitCode := by
    unfold mainExitCode; rw [h]
  obtain ⟨hst, hex⟩ := format_ok_fields env opt fs0 out h
  have hall : ∀ v ∈ out.cellStores, v = (1 : Int) := by
    rw [hst]; exact mem_runStores_eq_one _ _
  have hfin : out.exitCode = (if out.cellStores.isEmpty then 0 else 1) := by
    rw [hex]; exact cellFinal_ones _ hall
  have hempty : out.cellStores.isEmpty = true ↔
      ((∀ o ∈ outcomesOf out.jobs, outcomeIsDiff o = false ∧ outcomeIsFailed o = false) ∧
        out.walkErrors = 0) := by
    rw [hst]
    rw [List.isEmpty_iff, List.append_eq_nil]
    constructor
    · intro ⟨hs, hr⟩
      refine ⟨?_, ?_⟩
      · intro o ho
        have := (sinkStores_eq_nil _).mp hs o ho
        unfold outcomeIsError at this
        exact ⟨(Bool.or_eq_false_iff.mp this).1, (Bool.or_eq_false_iff.mp this).2⟩
      · have := congrArg List.length hr
        simpa using this
    · intro ⟨ho, hw⟩
      refine ⟨(sinkStores_eq_nil _).mpr ?_, ?_⟩
      · intro o hoo
        unfold outcomeIsError
        rw [(ho o hoo).1, (ho o hoo).2]
        rfl
      · rw [hw]; rfl
  constructor
  · rw [hm, hfin]
    constructor
    · intro h0
      by_cases hie : out.cellStores.isEmpty = true
      · exact hempty.mp hie
      · rw [if_neg hie] at h0; exact absurd h0 (by norm_num)
    · intro hc
      rw [if_pos (hempty.mpr hc)]
  · rw [hm, hfin]
    by_cases hie : out.cellStores.isEmpty = true
    · rw [if_pos hie]; exact Or.inl rfl
    · rw [if_neg hie]; exact Or.inr rfl

/-- Witness for C3 at a concrete run over the single file `a.lua`. -/
theorem c3_exit_code_witness :
    (mainExitCode env0 opt0 fs0c = 0 ↔
      ((∀ o ∈ outcomesOf out0.jobs, outcomeIsDiff o = false ∧ outcomeIsFailed o = false) ∧
        out0.walkErrors = 0)) ∧
    (mainExitCode env0 opt0 fs0c = 0 ∨ mainExitCode env0 opt0 fs0c = 1) :=
  c3_exit_code env0 opt0 fs0c out0 rfl

/-- Claim C6: a run with zero root paths fails immediately: `format` returns
the fatal configuration error before any effect of the embedding (all reads,
writes and dispatches live in the success outcome, which is never produced)
and the process exit code is 1. -/
theorem c6_no_roots (env : Env) (opt : Opt) (fs0 : FS) (h : opt.files = []) :
    format env opt fs0 = Except.error ⟨["error: no files provided"]⟩ ∧
    (∀ out, format env opt fs0 ≠ Except.ok out) ∧
    mainExitCode env opt fs0 = 1 := by
  have he : opt.files.isEmpty = true := by rw [h]; rfl
  have hf : format env opt fs0 = Except.error ⟨["error: no files provided"]⟩ := by
    unfold format; rw [he]; rfl
  refine ⟨hf, ?_, ?_⟩
  · intro out hc
    rw [hf] at hc
    exact Except.noConfusion hc
  · unfold mainExitCode
    rw [hf]

/-- Witness for C6 at the concrete empty option set. -/
theorem c6_no_roots_witness :
    format baseEnv optEmpty [] = Except.error ⟨["error: no files provided"]⟩ ∧
    (∀ out, format baseEnv optEmpty [] ≠ Except.ok out) ∧
    mainExitCode baseEnv optEmpty [] = 1 :=
  c6_no_roots baseEnv optEmpty [] rfl

/-- Claim C5: a check-mode file job never touches the file system, and a
successfully completed non-check file job overwrites exactly the target path
with exactly the formatted output of the engine. -/
theorem c5_write_discipline (env : Env) (fs : FS) (p : String) (config : Config)
    (range : Option Range) (opt : Opt) :
    (opt.check = true → (format_file env fs p config range opt).2.1 = fs) ∧
    (opt.check = false →
      (format_file env fs p config range opt).1 = Except.ok FormatResult.Complete →
      ∃ contents formatted,
        fsRead fs p = some contents ∧
        env.formatCode contents config range = Except.ok formatted ∧
        (format_file env fs p config range opt).2.1 = fsWrite fs p formatted ∧
        fsRead (format_file env fs p config range opt).2.1 p = some formatted) := by
  constructor
  · intro hc
    cases hfr : fsRead fs p with
    | none => rw [format_file_read_none env fs p config range opt hfr]
    | some c =>
      rw [format_file_read_some env fs p config range opt c hfr]
      cases hfc : env.formatCode c config range with
      | error e => rw [format_file_fmt_err env fs p config range opt c e hfc]
      | ok f =>
        rw [format_file_fmt_ok env fs p config range opt c f hfc]
        exact format_file_tail_check_snd env fs p opt c f hc
  · intro hc hres
    cases hfr : fsRead fs p with
    | none =>
      rw [format_file_read_none env fs p config range opt hfr] at hres
      exact absurd hres (by simp)
    | some c =>
      rw [format_file_read_some env fs p config range opt c hfr] at hres ⊢
      cases hfc : env.formatCode c config range with
      | error e =>
        rw [format_file_fmt_err env fs p config range opt c e hfc] at hres
        exact absurd hres (by simp)
      | ok f =>
        rw [format_file_fmt_ok env fs p config range opt c f hfc] at hres ⊢
        rw [format_file_tail_nocheck env fs p opt c f hc] at hres ⊢
        cases hw : env.writeOk p with
        | true =>
          rw [if_pos rfl]
          exact ⟨c, f, rfl, hfc, rfl, fsRead_fsWrite fs p f⟩
        | false =>
          rw [hw, if_neg Bool.false_ne_true] at hres
          exact absurd hres (by simp)

/-- Witness for C5: the check-mode job over `init.lua` leaves the file system
untouched, and the non-check job writes the formatted content. -/
theorem c5_write_discipline_witness :
    (format_file baseEnv fsA "init.lua" Config.mk none optCheckA).2.1 = fsA ∧
    (∃ contents formatted,
      fsRead fsA "init.lua" = some contents ∧
      baseEnv.formatCode contents Config.mk none = Except.ok formatted ∧
      (format_file baseEnv fsA "init.lua" Config.mk none optPlainA).2.1 =
        fsWrite fsA "init.lua" formatted ∧
      fsRead (format_file baseEnv fsA "init.lua" Config.mk none optPlainA).2.1 "init.lua" =
        some formatted) :=
  ⟨(c5_write_discipline baseEnv fsA "init.lua" Config.mk none optCheckA).1 rfl,
   (c5_write_discipline baseEnv fsA "init.lua" Config.mk none optPlainA).2 rfl rfl⟩

/-- Claim C4: with no include-glob override, a regular file yielded by the
walker is dispatched to a job iff it was explicitly given as a root (any
extension) or it matches the default glob `**/*.lua`; in particular explicit
files are always dispatched and expansion-reached files are dispatched exactly
when the default glob matches. -/
theorem c4_default_extension_filter (env : Env) (opt : Opt) (fs0 : FS) (out : RunOutcome)
    (hg : opt.glob = none) (h : format env opt fs0 = Except.ok out) (p : String) :
    p ∈ fileJobPaths out.jobs ↔
      (WalkItem.pathEntry p true ∈ env.walkItems ∧
        (p ∈ opt.files ∨ DEFAULT_GLOB_isMatch p = true)) := by
  obtain ⟨config, udg, hc, hu, rfl⟩ := format_ok_inv env opt fs0 out h
  have hudg : udg = true := by
    unfold buildUseDefaultGlob at hu
    rw [hg] at hu
    simp only [Except.ok.injEq] at hu
    exact hu.symm
  subst hudg
  have hjobs : (formatDispatch env opt config (mkRange opt) true fs0).jobs =
      (runItems env opt config (mkRange opt) true fs0 env.walkItems).2.1 := rfl
  rw [hjobs, mem_fileJobPaths_runItems, dispatchGate_true]
  have hany : ((opt.files.any fun q => p == q) || DEFAULT_GLOB_isMatch p) = true ↔
      (p ∈ opt.files ∨ DEFAULT_GLOB_isMatch p = true) := by
    rw [Bool.or_eq_true, List.any_eq_true]
    constructor
    · intro hor
      rcases hor with ⟨q, hq, hbe⟩ | hm
      · exact Or.inl (by rw [eq_of_beq hbe]; exact hq)
      · exact Or.inr hm
    · intro hor
      rcases hor with hm | hm
      · exact Or.inl ⟨p, hm, by simp⟩
      · exact Or.inr hm
  rw [hany]

/-- Witness for C4: in the concrete run, the explicitly named `a.lua` is
dispatched. -/
theorem c4_default_extension_filter_witness :
    "a.lua" ∈ fileJobPaths out0.jobs :=
  (c4_default_extension_filter env0 opt0 fs0c out0 rfl rfl "a.lua").mpr
    ⟨by simp [env0, baseEnv], Or.inl (by simp [opt0])⟩

/-- Claim C7 counterexample: when the diff renderer fails for the check-mode
job on `init.lua`, the message chain of the resulting `Failed` outcome is
`Failed to create diff` plus the message of the renderer itself, and no part of it
mentions the offending path. -/
theorem c7_counterexample :
    (format_file envDiffFail fsA "init.lua" Config.mk none optCheckA).1 =
      Except.error ⟨["Failed to create diff", "render failure"]⟩ ∧
    errMentions ⟨["Failed to create diff", "render failure"]⟩ "init.lua" = false :=
  ⟨rfl, by decide⟩

/-- Claim C7 (amended): every failure of a file-mode job is surfaced as a
`Failed` outcome with a contextual wrapper; for read, formatting and write
failures the wrapper names the offending path, while a diff-computation failure
is wrapped only as `Failed to create diff`, without the path. -/
theorem c7_failure_messages (env : Env) (fs : FS) (p : String) (config : Config)
    (range : Option Range) (opt : Opt) (e : Err)
    (h : (format_file env fs p config range opt).1 = Except.error e) :
    (e.contexts.head? = some ("Failed to read " ++ p) ∨
     e.contexts.head? = some ("Could not format file " ++ p) ∨
     e.contexts.head? = some ("Could not write to " ++ p) ∨
     e.contexts.head? = some "Failed to create diff") ∧
    (e.contexts.head? = some "Failed to create diff" ∨ errMentions e p = true) := by
  cases hfr : fsRead fs p with
  | none =>
    rw [format_file_read_none env fs p config range opt hfr] at h
    replace h : Except.error (⟨["Failed to read " ++ p, env.readErrMsg p]⟩ : Err) =
        Except.error e := h
    injection h with h
    subst h
    refine ⟨Or.inl rfl, Or.inr ?_⟩
    simp [errMentions, strContains_append]
  | some c =>
    rw [format_file_read_some env fs p config range opt c hfr] at h
    cases hfc : env.formatCode c config range with
    | error e2 =>
      rw [format_file_fmt_err env fs p config range opt c e2 hfc] at h
      replace h : Except.error (⟨["Could not format file " ++ p, e2]⟩ : Err) =
          Except.error e := h
      injection h with h
      subst h
      refine ⟨Or.inr (Or.inl rfl), Or.inr ?_⟩
      simp [errMentions, strContains_append]
    | ok f =>
      rw [format_file_fmt_ok env fs p config range opt c f hfc] at h
      cases hck : opt.check with
      | true =>
        cases hod : env.outputDiff c f 3 ("Diff in " ++ p ++ ":") opt.color with
        | error e2 =>
          rw [format_file_tail_check_diff_err env fs p opt c f e2 hck hod] at h
          replace h : Except.error (⟨["Failed to create diff", e2]⟩ : Err) =
              Except.error e := h
          injection h with h
          subst h
          exact ⟨Or.inr (Or.inr (Or.inr rfl)), Or.inl rfl⟩
        | ok od =>
          cases od with
          | some d =>
            rw [format_file_tail_check_diff_some env fs p opt c f d hck hod] at h
            exact absurd h (by simp)
          | none =>
            rw [format_file_tail_check_diff_none env fs p opt c f hck hod] at h
            exact absurd h (by simp)
      | false =>
        rw [format_file_tail_nocheck env fs p opt c f hck] at h
        cases hw : env.writeOk p with
        | true =>
          rw [hw, if_pos rfl] at h
          exact absurd h (by simp)
        | false =>
          rw [hw, if_neg Bool.false_ne_true] at h
          replace h : Except.error (⟨["Could not write to " ++ p, env.writeErrMsg p]⟩ : Err) =
              Except.error e := h
          injection h with h
          subst h
          refine ⟨Or.inr (Or.inr (Or.inl rfl)), Or.inr ?_⟩
          simp [errMentions, strContains_append]

/-- Witness for the amended C7 at a concrete read failure on `init.lua`. -/
theorem c7_failure_messages_witness :
    ((⟨["Failed to read " ++ "init.lua", "io error"]⟩ : Err).contexts.head? =
        some ("Failed to read " ++ "init.lua") ∨
     (⟨["Failed to read " ++ "init.lua", "io error"]⟩ : Err).contexts.head? =
        some ("Could not format file " ++ "init.lua") ∨
     (⟨["Failed to read " ++ "init.lua", "io error"]⟩ : Err).contexts.head? =
        some ("Could not write to " ++ "init.lua") ∨
     (⟨["Failed to read " ++ "init.lua", "io error"]⟩ : Err).contexts.head? =
        some "Failed to create diff") ∧
    ((⟨["Failed to read " ++ "init.lua", "io error"]⟩ : Err).contexts.head? =
        some "Failed to create diff" ∨
     errMentions ⟨["Failed to read " ++ "init.lua", "io error"]⟩ "init.lua" = true) :=
  c7_failure_messages baseEnv [] "init.lua" Config.mk none optPlainA
    ⟨["Failed to read " ++ "init.lua", "io error"]⟩ rfl

/-- Claim C8 counterexample: `format` enables the hidden-file filter of the walker
(`hidden(true)` after `standard_filters(false)`), so the hidden file
`.secret.lua` reached at depth 1 under a traversed directory is not yielded as
a candidate entry. -/
theorem c8_counterexample :
    formatWalkerConfig.hidden = true ∧
    hiddenFilterKeeps formatWalkerConfig 1 ".secret.lua" = false :=
  ⟨rfl, by decide⟩

/-- Claim C8 (amended): under the walker configuration `format` builds, every
hidden-named entry reached by recursive expansion (depth ≥ 1) is excluded from
the candidate stream; only root entries bypass the hidden filter. -/
theorem c8_hidden_filtered (name : String) (depth : Nat)
    (hn : isHiddenName name = true) (hd : depth ≠ 0) :
    hiddenFilterKeeps formatWalkerConfig depth name = false := by
  unfold hiddenFilterKeeps
  have h0 : (depth == 0) = false := by
    cases depth with
    | zero => exact absurd rfl hd
    | succ k => rfl
  rw [h0, hn]
  rfl

/-- Witness for the amended C8 at a concrete hidden file. -/
theorem c8_hidden_filtered_witness :
    hiddenFilterKeeps formatWalkerConfig 1 ".bar.lua" = false :=
  c8_hidden_filtered ".bar.lua" 1 (by decide) (by decide)

/-- Claim C10 counterexample: in the non-check stdin run, the worker thread
of the stdin job itself writes the formatted payload to the standard-output
stream (via `format_string`), so not every output-stream write is performed by
the sink task. -/
theorem c10_counterexample :
    format envStdin optStdinPlain [] = Except.ok outSP ∧
    ∃ j ∈ outSP.jobs, j.kind = JobKind.stdinJob ∧ j.stdoutWrites = ["local x = 1\n"] := by
  refine ⟨rfl, ⟨⟨JobKind.stdinJob, [Except.ok FormatResult.Complete], ["local x = 1\n"]⟩,
    ?_, rfl, rfl⟩⟩
  exact List.mem_singleton.mpr rfl

/-- A verbose file-mode job does write the timing line to stdout from its own
worker thread (`verbose_println!`, main.rs lines 53-58), evaluated at a
concrete check-free verbose run over `init.lua`. -/
theorem format_file_verbose_writes :
    (format_file baseEnv fsA "init.lua" Config.mk none
      ⟨["init.lua"], false, none, none, none, 1, true, false⟩).2.2 =
      ["formatted " ++ "init.lua"] := rfl

/-- Claim C10 (amended): diff payloads are written only by the sink task, and
job threads write to the output stream directly in exactly two cases — the
stdin job writes its formatted output from its worker thread, and a file-mode
job prints the verbose timing line from its worker thread when the verbose
flag is set.  Hence in a non-verbose run no file-mode job writes to the output
stream from its worker thread. -/
theorem c10_job_thread_writes (env : Env) (opt : Opt) (fs0 : FS) (out : RunOutcome)
    (hv : opt.verbose = false) (h : format env opt fs0 = Except.ok out) :
    ∀ j ∈ out.jobs, j.kind ≠ JobKind.stdinJob → j.stdoutWrites = [] := by
  obtain ⟨config, udg, _, _, rfl⟩ := format_ok_inv env opt fs0 out h
  intro j hj hk
  exact runItems_file_jobs_no_stdout env opt config (mkRange opt) udg hv
    env.walkItems fs0 j hj hk

/-- Witness for the amended C10: in the concrete non-verbose run, the
file-mode job wrote nothing to stdout from its worker thread. -/
theorem c10_job_thread_writes_witness :
    (⟨JobKind.fileJob "a.lua", [Except.ok FormatResult.Complete], []⟩ :
      JobRecord).stdoutWrites = [] :=
  c10_job_thread_writes env0 opt0 fs0c out0 rfl rfl
    ⟨JobKind.fileJob "a.lua", [Except.ok FormatResult.Complete], []⟩
    (List.mem_singleton.mpr rfl) (fun hcc => JobKind.noConfusion hcc)

/-- Claim C1 (code-bug evidence): in a check-mode stdin run, the stdin job does
not fail fast.  It sends the usage-error outcome, but then still reads stdin,
formats the content, writes the formatted text to stdout from its own thread,
and sends a second (successful) outcome — two outcomes, with content written,
where the claim (and the error message in the job itself) demand exactly one `Failed`
outcome and no output. -/
theorem c1_stdin_check_not_fail_fast :
    (stdin_job envStdin optStdinCheck Config.mk none).1 =
      [Except.error ⟨["warning: `--check` cannot be used whilst reading from stdin"]⟩,
       Except.ok FormatResult.Complete] ∧
    (stdin_job envStdin optStdinCheck Config.mk none).2 = ["local x = 1\n"] :=
  ⟨rfl, rfl⟩

/-- Claim C2 (code-bug evidence): the check-mode stdin run dispatches one job,
and that job sends two outcomes into the result channel, not one. -/
theorem c2_stdin_check_two_outcomes :
    ((format envStdin optStdinCheck []).toOption.map fun out =>
      out.jobs.map fun j => j.sends.length) = some [2] := rfl

end Luafmt
